import Mathlib

/-!
# Verification of `pkg/awsclient/elb_helper.go` (cloud-ingress-operator)

Shallow embedding of the classic-ELB helper of the cloud-ingress-operator
repository.  The helper functions (`CreateClassicELB`, `SetLoadBalancerPrivate`,
`SetLoadBalancerPublic`, `AddLoadBalancerInstances`,
`RemoveInstancesFromLoadBalancer`, `DoesELBExist`, `addHealthCheck`) are
translated line by line from `src/pkg/awsclient/elb_helper.go`.

The helpers are thin wrappers over the AWS classic-ELB control-plane service,
which is not part of the repository.  Its behaviour is modelled from the spec
(sections 3, 4.1, 6 and 7): a map from load-balancer names to per-LB state
(listeners keyed by frontend port, an instance membership set, an optional
health-check configuration), with the documented idempotent-delete,
duplicate-listener and register/deregister semantics.  Arbitrary remote faults
(the spec's catch-all `RemoteServiceError`) are modelled by fault-injection
fields on the service state, so that theorems can quantify over executions in
which a remote call fails.

Go `error` values are modelled by `RemoteError`; a Go runtime panic
(nil-pointer dereference / index out of range) is modelled by `Option.none` on
the result of the function that panics.
-/

/-- A Go `error` returned by the remote AWS service: either a provider-typed
`awserr.Error` (carrying a code string inspected via `aerr.Code()`), or any
other error value that does not implement the `awserr.Error` interface. -/
inductive RemoteError where
  | awsErr (code : String) (msg : String)
  | nonAws (msg : String)
deriving DecidableEq, Repr

/-- `elb.ErrCodeAccessPointNotFoundException` — the provider's not-found
condition for a load-balancer name ("LoadBalancerNotFound"). -/
def ErrCodeAccessPointNotFoundException : String := "LoadBalancerNotFound"

/-- `elb.ErrCodeDuplicateListenerException` — the provider's conflict condition
for a listener whose frontend port is taken with different parameters. -/
def ErrCodeDuplicateListenerException : String := "DuplicateListener"

/-- `elb.ErrCodeDuplicateAccessPointNameException` — creation with a name that
is already in use. -/
def ErrCodeDuplicateAccessPointNameException : String := "DuplicateLoadBalancerName"

/-- `elb.Listener`: one traffic-forwarding rule, as built by the Go code
(`InstancePort`, `InstanceProtocol`, `Protocol`, `LoadBalancerPort`).
Ports are `int64` in Go; the values used are far below `2^63` so plain `Int`
is a faithful model. -/
structure Listener where
  instancePort : Int
  instanceProtocol : String
  protocol : String
  loadBalancerPort : Int
deriving DecidableEq, Repr

/-- `elb.HealthCheck` as built by `addHealthCheck` (the `Target` field is the
formatted string `protocol:port path`). -/
structure HealthCheck where
  healthyThreshold : Int
  interval : Int
  target : String
  timeout : Int
  unhealthyThreshold : Int
deriving DecidableEq, Repr

/-- Modelled from the spec: the remote service's per-LB state — provider
assigned DNS name, the set of listeners keyed by frontend port, the
set-valued instance membership, and the (last-write-wins) health-check
configuration. -/
structure LBState where
  dnsName : String
  listeners : List Listener
  instances : List String
  healthCheck : Option HealthCheck
deriving DecidableEq, Repr

/-- One entry of `DescribeLoadBalancersOutput.LoadBalancerDescriptions`; the Go
code reads only its `DNSName`. -/
structure LBDescription where
  dnsName : String
deriving DecidableEq, Repr

/-- Modelled from the spec: the full state of the remote `LoadBalancerService`
capability, which is not part of this repository.  `lbs` is the account's map
from load-balancer name to LB state.  The remaining fields inject remote
faults, modelling the spec's catch-all `RemoteServiceError` ("any other
provider-reported fault"): when `createFault` (resp. `hcFault`) is set the
next create (resp. health-check) call fails with that error, and when
`describeResponse` is set the describe call returns exactly that response,
whatever its shape. -/
structure ELBServiceState where
  lbs : List (String × LBState)
  createFault : Option RemoteError
  hcFault : Option RemoteError
  describeResponse : Option (Except RemoteError (List LBDescription))

/-- Association-list lookup of a load balancer by name. -/
def lookupLB : List (String × LBState) → String → Option LBState
  | [], _ => none
  | (n, lb) :: rest, name => if n = name then some lb else lookupLB rest name

/-- Association-list update of a load balancer by name (no-op if absent). -/
def updateLB : List (String × LBState) → String → LBState → List (String × LBState)
  | [], _, _ => []
  | (n, lb) :: rest, name, lb' =>
    if n = name then (n, lb') :: rest else (n, lb) :: updateLB rest name lb'

/-- Set-insertion of each id in turn: an id already present is left unchanged
(set semantics of the remote membership set, spec section 3). -/
def addAll : List String → List String → List String
  | m, [] => m
  | m, a :: rest => addAll (if a ∈ m then m else m ++ [a]) rest

/-- Set-removal: drop every member listed in `ids`; absent ids are ignored. -/
def removeAll (m ids : List String) : List String :=
  m.filter (fun a => !(ids.contains a))

/-- Modelled from the spec: the provider-assigned fully-qualified DNS name for
a freshly created load balancer (opaque to this component; any injective
naming works). -/
def elbDnsName (name : String) : String := name ++ ".elb.amazonaws.com"

/-! ## Request structs (`elb.*Input`), as populated by the Go code. -/

/-- `elb.CreateLoadBalancerInput` (the fields the Go code populates). -/
structure CreateLoadBalancerInput where
  loadBalancerName : String
  subnets : List String
  listeners : List Listener

/-- `elb.CreateLoadBalancerOutput` (the Go code reads only `DNSName`). -/
structure CreateLoadBalancerOutput where
  dnsName : String

/-- `elb.ConfigureHealthCheckInput`. -/
structure ConfigureHealthCheckInput where
  healthCheck : HealthCheck
  loadBalancerName : String

/-- `elb.CreateLoadBalancerListenersInput`. -/
structure CreateLoadBalancerListenersInput where
  listeners : List Listener
  loadBalancerName : String

/-- `elb.DeleteLoadBalancerListenersInput`. -/
structure DeleteLoadBalancerListenersInput where
  loadBalancerName : String
  loadBalancerPorts : List Int

/-- `elb.Instance` (only `InstanceId` is populated). -/
structure ELBInstance where
  instanceId : String

/-- `elb.RegisterInstancesWithLoadBalancerInput`. -/
structure RegisterInstancesInput where
  instances : List ELBInstance
  loadBalancerName : String

/-- `elb.DeregisterInstancesFromLoadBalancerInput`. -/
structure DeregisterInstancesInput where
  instances : List ELBInstance
  loadBalancerName : String

/-- `elb.DescribeLoadBalancersInput`. -/
structure DescribeLoadBalancersInput where
  loadBalancerNames : List String

/-! ## The remote service's operations, modelled from the spec (section 6). -/

/-- Modelled from the spec: `CreateLoadBalancer(name, subnets[], listeners[])
→ dnsName`.  A fresh name creates the LB with the requested listeners, empty
membership and no health check; a duplicate name is rejected; an injected
fault fails the call with the LB map unchanged. -/
def svcCreateLoadBalancer (s : ELBServiceState) (i : CreateLoadBalancerInput) :
    (Except RemoteError CreateLoadBalancerOutput) × ELBServiceState :=
  match s.createFault with
  | some e => (.error e, s)
  | none =>
    match lookupLB s.lbs i.loadBalancerName with
    | some _ =>
      (.error (.awsErr ErrCodeDuplicateAccessPointNameException
        "Load Balancer name already exists"), s)
    | none =>
      let lb : LBState :=
        { dnsName := elbDnsName i.loadBalancerName
          listeners := i.listeners
          instances := []
          healthCheck := none }
      (.ok { dnsName := elbDnsName i.loadBalancerName },
        { s with lbs := (i.loadBalancerName, lb) :: s.lbs })

/-- Modelled from the spec: `ConfigureHealthCheck(name, HealthCheckSpec)`;
exactly one active configuration at a time, last-write-wins (spec section 3).
An injected fault fails the call with the LB map unchanged. -/
def svcConfigureHealthCheck (s : ELBServiceState) (i : ConfigureHealthCheckInput) :
    (Except RemoteError Unit) × ELBServiceState :=
  match s.hcFault with
  | some e => (.error e, s)
  | none =>
    match lookupLB s.lbs i.loadBalancerName with
    | none =>
      (.error (.awsErr ErrCodeAccessPointNotFoundException
        "There is no ACTIVE Load Balancer with the given name"), s)
    | some lb =>
      let lb' : LBState := { lb with healthCheck := some i.healthCheck }
      (.ok (), { s with lbs := updateLB s.lbs i.loadBalancerName lb' })

/-- Modelled from the spec (section 4.1, SetPublic): adding a listener whose
frontend port is free creates it; re-adding a listener with identical
parameters succeeds as a no-op; a listener whose frontend port is taken with
different parameters is rejected with the provider's duplicate-listener
condition. -/
def addOneListener (ls : List Listener) (l : Listener) :
    Except RemoteError (List Listener) :=
  match ls.find? (fun x => x.loadBalancerPort == l.loadBalancerPort) with
  | none => .ok (ls ++ [l])
  | some x =>
    if x = l then .ok ls
    else .error (.awsErr ErrCodeDuplicateListenerException
      "A listener already exists for the given port with different parameters")

/-- Fold `addOneListener` over a batch of requested listeners. -/
def addListenerBatch : List Listener → List Listener → Except RemoteError (List Listener)
  | ls, [] => .ok ls
  | ls, l :: rest =>
    match addOneListener ls l with
    | .error e => .error e
    | .ok ls' => addListenerBatch ls' rest

/-- Modelled from the spec: `CreateListeners(name, listeners[])`; a nonexistent
name is the provider's not-found condition. -/
def svcCreateLoadBalancerListeners (s : ELBServiceState)
    (i : CreateLoadBalancerListenersInput) :
    (Except RemoteError Unit) × ELBServiceState :=
  match lookupLB s.lbs i.loadBalancerName with
  | none =>
    (.error (.awsErr ErrCodeAccessPointNotFoundException
      "There is no ACTIVE Load Balancer with the given name"), s)
  | some lb =>
    match addListenerBatch lb.listeners i.listeners with
    | .error e => (.error e, s)
    | .ok ls' =>
      let lb' : LBState := { lb with listeners := ls' }
      (.ok (), { s with lbs := updateLB s.lbs i.loadBalancerName lb' })

/-- Modelled from the spec: `DeleteListeners(name, frontendPorts[])`; deleting
an absent listener succeeds silently (idempotent-delete semantics, spec
section 4.1 SetPrivate); a nonexistent name is the provider's not-found
condition. -/
def svcDeleteLoadBalancerListeners (s : ELBServiceState)
    (i : DeleteLoadBalancerListenersInput) :
    (Except RemoteError Unit) × ELBServiceState :=
  match lookupLB s.lbs i.loadBalancerName with
  | none =>
    (.error (.awsErr ErrCodeAccessPointNotFoundException
      "There is no ACTIVE Load Balancer with the given name"), s)
  | some lb =>
    let kept := lb.listeners.filter
      (fun l => !(i.loadBalancerPorts.contains l.loadBalancerPort))
    let lb' : LBState := { lb with listeners := kept }
    (.ok (), { s with lbs := updateLB s.lbs i.loadBalancerName lb' })

/-- Modelled from the spec: `RegisterInstances(name, instanceRefs[])` — the
membership is set-valued, adding an existing member is a no-op (spec
section 3); a nonexistent name is the provider's not-found condition. -/
def svcRegisterInstances (s : ELBServiceState) (i : RegisterInstancesInput) :
    (Except RemoteError Unit) × ELBServiceState :=
  match lookupLB s.lbs i.loadBalancerName with
  | none =>
    (.error (.awsErr ErrCodeAccessPointNotFoundException
      "There is no ACTIVE Load Balancer with the given name"), s)
  | some lb =>
    let lb' : LBState :=
      { lb with instances := addAll lb.instances (i.instances.map (·.instanceId)) }
    (.ok (), { s with lbs := updateLB s.lbs i.loadBalancerName lb' })

/-- Modelled from the spec: `DeregisterInstances(name, instanceRefs[])` —
removing an absent member is a no-op (spec section 3); a nonexistent name is
the provider's not-found condition. -/
def svcDeregisterInstances (s : ELBServiceState) (i : DeregisterInstancesInput) :
    (Except RemoteError Unit) × ELBServiceState :=
  match lookupLB s.lbs i.loadBalancerName with
  | none =>
    (.error (.awsErr ErrCodeAccessPointNotFoundException
      "There is no ACTIVE Load Balancer with the given name"), s)
  | some lb =>
    let lb' : LBState :=
      { lb with instances := removeAll lb.instances (i.instances.map (·.instanceId)) }
    (.ok (), { s with lbs := updateLB s.lbs i.loadBalancerName lb' })

/-- Modelled from the spec: `DescribeLoadBalancer(name) → LoadBalancerDescription
| NotFoundFault`.  When a response is injected it is returned verbatim
(modelling any remote outcome, including transport failures and degenerate
successes); otherwise a present name yields its one-element description list
and an absent name yields the provider's not-found condition. -/
def svcDescribeLoadBalancers (s : ELBServiceState) (i : DescribeLoadBalancersInput) :
    Except RemoteError (List LBDescription) :=
  match s.describeResponse with
  | some r => r
  | none =>
    match i.loadBalancerNames with
    | [] => .ok []
    | name :: _ =>
      match lookupLB s.lbs name with
      | some lb => .ok [{ dnsName := lb.dnsName }]
      | none =>
        .error (.awsErr ErrCodeAccessPointNotFoundException
          "There is no ACTIVE Load Balancer with the given name")

/-! ## The wrapper functions, translated from `src/pkg/awsclient/elb_helper.go`. -/

/-- Translation of `addHealthCheck` (elb_helper.go lines 145-158): builds a
`ConfigureHealthCheckInput` with thresholds 2/2, interval 30, timeout 3 and
`Target = fmt.Sprintf("%s:%d%s", protocol, port, path)`, and issues it. -/
def addHealthCheck (s : ELBServiceState) (loadBalancerName protocol path : String)
    (port : Int) : (Except RemoteError Unit) × ELBServiceState :=
  let i : ConfigureHealthCheckInput :=
    { healthCheck :=
        { healthyThreshold := 2
          interval := 30
          target := protocol ++ ":" ++ toString port ++ path
          timeout := 3
          unhealthyThreshold := 2 }
      loadBalancerName := loadBalancerName }
  svcConfigureHealthCheck s i

/-- Translation of `CreateClassicELB` (elb_helper.go lines 16-41): build the
create request with a single tcp listener `listenerPort → listenerPort`, call
`CreateLoadBalancer`, return its error on failure; otherwise call
`addHealthCheck(elbName, "HTTP", "/", 6443)`, return its error on failure;
otherwise return the provider's DNS name. -/
def CreateClassicELB (s : ELBServiceState) (elbName : String) (subnets : List String)
    (listenerPort : Int) : (Except RemoteError String) × ELBServiceState :=
  let i : CreateLoadBalancerInput :=
    { loadBalancerName := elbName
      subnets := subnets
      listeners := [{ instancePort := listenerPort
                      instanceProtocol := "tcp"
                      protocol := "tcp"
                      loadBalancerPort := listenerPort }] }
  match svcCreateLoadBalancer s i with
  | (.error e, s1) => (.error e, s1)
  | (.ok o, s1) =>
    match addHealthCheck s1 elbName "HTTP" "/" 6443 with
    | (.error e, s2) => (.error e, s2)
    | (.ok _, s2) => (.ok o.dnsName, s2)

/-- Translation of `removeListenersFromELB` (elb_helper.go lines 67-74):
delete the listener on frontend port 6443. -/
def removeListenersFromELB (s : ELBServiceState) (elbName : String) :
    (Except RemoteError Unit) × ELBServiceState :=
  let i : DeleteLoadBalancerListenersInput :=
    { loadBalancerName := elbName
      loadBalancerPorts := [6443] }
  svcDeleteLoadBalancerListeners s i

/-- Translation of `SetLoadBalancerPrivate` (elb_helper.go lines 45-47). -/
def SetLoadBalancerPrivate (s : ELBServiceState) (elbName : String) :
    (Except RemoteError Unit) × ELBServiceState :=
  removeListenersFromELB s elbName

/-- Translation of `addListenersToELB` (elb_helper.go lines 81-88). -/
def addListenersToELB (s : ELBServiceState) (elbName : String)
    (listeners : List Listener) : (Except RemoteError Unit) × ELBServiceState :=
  let i : CreateLoadBalancerListenersInput :=
    { listeners := listeners
      loadBalancerName := elbName }
  svcCreateLoadBalancerListeners s i

/-- Translation of `SetLoadBalancerPublic` (elb_helper.go lines 52-62): add a
single tcp listener `listenerPort → listenerPort`. -/
def SetLoadBalancerPublic (s : ELBServiceState) (elbName : String)
    (listenerPort : Int) : (Except RemoteError Unit) × ELBServiceState :=
  addListenersToELB s elbName
    [{ instancePort := listenerPort
       instanceProtocol := "tcp"
       protocol := "tcp"
       loadBalancerPort := listenerPort }]

/-- Translation of `AddLoadBalancerInstances` (elb_helper.go lines 98-109):
wrap each id into an `elb.Instance` and register the batch. -/
def AddLoadBalancerInstances (s : ELBServiceState) (elbName : String)
    (instanceIds : List String) : (Except RemoteError Unit) × ELBServiceState :=
  let instances := instanceIds.map (fun ins => ELBInstance.mk ins)
  let i : RegisterInstancesInput :=
    { instances := instances
      loadBalancerName := elbName }
  svcRegisterInstances s i

/-- Translation of `RemoveInstancesFromLoadBalancer` (elb_helper.go lines
112-123): wrap each id into an `elb.Instance` and deregister the batch. -/
def RemoveInstancesFromLoadBalancer (s : ELBServiceState) (elbName : String)
    (instanceIds : List String) : (Except RemoteError Unit) × ELBServiceState :=
  let instances := instanceIds.map (fun ins => ELBInstance.mk ins)
  let i : DeregisterInstancesInput :=
    { instances := instances
      loadBalancerName := elbName }
  svcDeregisterInstances s i

/-- Translation of `DoesELBExist` (elb_helper.go lines 127-143), control flow
kept exactly: on a provider-typed error whose code is the not-found condition
return `(false, "", nil)`; on any other provider-typed error return
`(false, "", err)`; otherwise control falls through to
`return true, *res.LoadBalancerDescriptions[0].DNSName, nil`, which panics
(modelled as `none`) when the error was not provider-typed (the result struct
carries no descriptions) or when a successful response has an empty
description list. -/
def DoesELBExist (s : ELBServiceState) (elbName : String) :
    Option (Bool × String × Option RemoteError) :=
  let i : DescribeLoadBalancersInput := { loadBalancerNames := [elbName] }
  match svcDescribeLoadBalancers s i with
  | .error e =>
    match e with
    | .awsErr code msg =>
      if code = ErrCodeAccessPointNotFoundException then some (false, "", none)
      else some (false, "", some (.awsErr code msg))
    | .nonAws _ => none
  | .ok descs =>
    match descs with
    | [] => none
    | d :: _ => some (true, d.dnsName, none)

/-! ## Observation helpers and concrete states used in theorem statements. -/

/-- The membership set the remote service records for `name` (empty if the LB
does not exist). -/
def membersOf (s : ELBServiceState) (name : String) : List String :=
  match lookupLB s.lbs name with
  | none => []
  | some lb => lb.instances

/-- The listener set the remote service records for `name` (empty if the LB
does not exist). -/
def listenersOf (s : ELBServiceState) (name : String) : List Listener :=
  match lookupLB s.lbs name with
  | none => []
  | some lb => lb.listeners

/-- The health-check configuration the remote service records for `name`. -/
def healthCheckOf (s : ELBServiceState) (name : String) : Option HealthCheck :=
  match lookupLB s.lbs name with
  | none => none
  | some lb => lb.healthCheck

/-- No listener of `name` is bound to frontend port `p`. -/
def noListenerOnPort (s : ELBServiceState) (name : String) (p : Int) : Prop :=
  ∀ l ∈ listenersOf s name, l.loadBalancerPort ≠ p

/-- The single tcp listener `port → port` that `SetLoadBalancerPublic` and
`CreateClassicELB` build. -/
def tcpListener (port : Int) : Listener :=
  { instancePort := port, instanceProtocol := "tcp", protocol := "tcp", loadBalancerPort := port }

/-! ## Lemmas about the association list and the membership-set operations. -/

theorem lookupLB_updateLB_self (lbs : List (String × LBState)) (name : String)
    (v lb : LBState) (h : lookupLB lbs name = some lb) :
    lookupLB (updateLB lbs name v) name = some v := by
  induction lbs with
  | nil => simp [lookupLB] at h
  | cons p rest ih =>
    obtain ⟨n, w⟩ := p
    by_cases hn : n = name
    · simp [lookupLB, updateLB, hn]
    · simp [lookupLB, updateLB, hn] at h ⊢
      exact ih h

theorem updateLB_updateLB (lbs : List (String × LBState)) (name : String)
    (v w : LBState) :
    updateLB (updateLB lbs name v) name w = updateLB lbs name w := by
  induction lbs with
  | nil => rfl
  | cons p rest ih =>
    obtain ⟨n, u⟩ := p
    by_cases hn : n = name
    · simp [updateLB, hn]
    · simp [updateLB, hn, ih]

theorem updateLB_self (lbs : List (String × LBState)) (name : String)
    (lb : LBState) (h : lookupLB lbs name = some lb) :
    updateLB lbs name lb = lbs := by
  induction lbs with
  | nil => rfl
  | cons p rest ih =>
    obtain ⟨n, w⟩ := p
    by_cases hn : n = name
    · simp [lookupLB, hn] at h
      simp [updateLB, hn, h]
    · simp [lookupLB, hn] at h
      simp [updateLB, hn, ih h]

theorem mem_addAll {m ids : List String} {x : String} :
    x ∈ addAll m ids ↔ x ∈ m ∨ x ∈ ids := by
  induction ids generalizing m with
  | nil => simp [addAll]
  | cons a rest ih =>
    by_cases h : a ∈ m
    · simp [addAll, h, ih]
      constructor
      · intro hc
        rcases hc with hc | hc
        · exact Or.inl hc
        · exact Or.inr (Or.inr hc)
      · intro hc
        rcases hc with hc | hc | hc
        · exact Or.inl hc
        · exact Or.inl (hc ▸ h)
        · exact Or.inr hc
    · simp [addAll, h, ih]
      tauto
  
theorem addAll_eq_of_subset {m ids : List String} (h : ∀ a ∈ ids, a ∈ m) :
    addAll m ids = m := by
  induction ids generalizing m with
  | nil => rfl
  | cons a rest ih =>
    have ha : a ∈ m := h a (by simp)
    simp [addAll, ha]
    exact ih (fun b hb => h b (by simp [hb]))

theorem addAll_idem (m ids : List String) :
    addAll (addAll m ids) ids = addAll m ids :=
  addAll_eq_of_subset (fun _ ha => mem_addAll.mpr (Or.inr ha))

theorem removeAll_nil (m : List String) : removeAll m [] = m := by
  simp [removeAll]

theorem removeAll_of_disjoint {m ids : List String} (h : ∀ a ∈ m, a ∉ ids) :
    removeAll m ids = m := by
  apply List.filter_eq_self.mpr
  intro a ha
  simp [h a ha]

theorem map_instanceId_map_mk (ids : List String) :
    (ids.map (fun ins => ELBInstance.mk ins)).map (·.instanceId) = ids := by
  induction ids with
  | nil => rfl
  | cons a rest ih => simp [ih]

/-! ## Concrete remote executions used by closed theorems. -/

/-- A remote execution in which `DescribeLoadBalancers` fails with an error
value that is not provider-typed (does not implement `awserr.Error`), e.g. a
wrapped transport failure. -/
def stDescribeNonAwsFault : ELBServiceState :=
  ⟨[], none, none, some (.error (.nonAws "connection reset by peer"))⟩

/-- A remote execution in which `DescribeLoadBalancers` fails with a
provider-typed transient fault whose code is not the not-found condition. -/
def stDescribeThrottled : ELBServiceState :=
  ⟨[], none, none, some (.error (.awsErr "Throttling" "Rate exceeded"))⟩

/-- A remote execution in which `DescribeLoadBalancers` succeeds but returns
an empty description list. -/
def stDescribeEmptyOk : ELBServiceState :=
  ⟨[], none, none, some (.ok [])⟩

/-- A remote execution in which the create call is rejected with a transient
provider fault. -/
def stCreateThrottled : ELBServiceState :=
  ⟨[], some (.awsErr "Throttling" "Rate exceeded"), none, none⟩

/-- A remote execution in which creation succeeds and the subsequent
health-check attach is rejected with the same transient provider fault. -/
def stHealthCheckThrottled : ELBServiceState :=
  ⟨[], none, some (.awsErr "Throttling" "Rate exceeded"), none⟩

/-! ## Claim theorems. -/

/-- C1: the claim says every remote failure other than the name-specific
not-found condition is propagated as `(false, "", error)`.  The code only does
so for provider-typed (`awserr`) failures: evaluated on a describe call that
fails with a non-provider-typed error, `DoesELBExist` falls through the type
assertion and dereferences the absent result (a runtime panic, modelled as
`none`) instead of returning the error.  On a provider-typed transient fault
the propagation does behave as claimed. -/
theorem doesELBExist_crashes_on_non_awserr_fault :
    DoesELBExist stDescribeNonAwsFault "api-lb" = none
    ∧ DoesELBExist stDescribeThrottled "api-lb"
        = some (false, "", some (.awsErr "Throttling" "Rate exceeded")) :=
  ⟨rfl, by decide⟩

/-- C10: `DoesELBExist` is partial — when the remote describe call fails with
an error that is not provider-typed, or succeeds with an empty description
list, the function panics (dereferences the absent result / indexes the empty
slice, modelled as `none`) instead of returning through the error branch. -/
theorem doesELBExist_partial_on_unhandled_shapes :
    DoesELBExist stDescribeNonAwsFault "rh-api" = none
    ∧ DoesELBExist stDescribeEmptyOk "rh-api" = none :=
  ⟨rfl, rfl⟩

/-- C2 counterexample: the claim says creation failure and health-check-attach
failure are surfaced as distinct typed errors.  Evaluated on two concrete
executions that fail with the same provider fault — one at the create step,
one at the attach step after creation succeeded (the LB is present in the
final state of the second run) — `CreateClassicELB` returns the identical
untyped error value, so a caller cannot tell the two failure modes apart. -/
theorem provision_failure_modes_indistinguishable :
    (CreateClassicELB stCreateThrottled "api-lb" ["subnet-a", "subnet-b"] 6443).1
      = (CreateClassicELB stHealthCheckThrottled "api-lb" ["subnet-a", "subnet-b"] 6443).1
    ∧ (CreateClassicELB stCreateThrottled "api-lb" ["subnet-a", "subnet-b"] 6443).1
        = .error (.awsErr "Throttling" "Rate exceeded")
    ∧ lookupLB (CreateClassicELB stHealthCheckThrottled "api-lb"
        ["subnet-a", "subnet-b"] 6443).2.lbs "api-lb" ≠ none :=
  ⟨rfl, rfl, by decide⟩

/-- C2 amended: when the create request fails, `CreateClassicELB` returns the
create step's error unchanged (and the service state is untouched); when the
create succeeds and the health-check attach fails, it returns the attach
step's error unchanged.  Both errors are raw provider errors passed through,
not distinct `ProvisionError`/`HealthCheckError` types. -/
theorem provision_error_passthrough (s : ELBServiceState) (name : String)
    (subnets : List String) (port : Int) (e : RemoteError) :
    (s.createFault = some e → CreateClassicELB s name subnets port = (.error e, s))
    ∧ (s.createFault = none → s.hcFault = some e → lookupLB s.lbs name = none →
        (CreateClassicELB s name subnets port).1 = .error e) := by
  constructor
  · intro h
    simp [CreateClassicELB, svcCreateLoadBalancer, h]
  · intro h1 h2 h3
    simp [CreateClassicELB, svcCreateLoadBalancer, addHealthCheck,
      svcConfigureHealthCheck, h1, h2, h3]

/-- Witness for C2's amended theorem at concrete executions. -/
theorem provision_error_passthrough_witness :
    CreateClassicELB stCreateThrottled "api-lb" ["subnet-a"] 6443
        = (.error (.awsErr "Throttling" "Rate exceeded"), stCreateThrottled)
    ∧ (CreateClassicELB stHealthCheckThrottled "api-lb" ["subnet-a"] 6443).1
        = .error (.awsErr "Throttling" "Rate exceeded") :=
  ⟨(provision_error_passthrough stCreateThrottled "api-lb" ["subnet-a"] 6443
      (.awsErr "Throttling" "Rate exceeded")).1 rfl,
   (provision_error_passthrough stHealthCheckThrottled "api-lb" ["subnet-a"] 6443
      (.awsErr "Throttling" "Rate exceeded")).2 rfl rfl rfl⟩

/-- Evaluation of `AddLoadBalancerInstances` on an existing LB: the request is
accepted and the membership set becomes the set-union with the given ids. -/
theorem addInstances_eq (s : ELBServiceState) (name : String) (lb : LBState)
    (ids : List String) (h : lookupLB s.lbs name = some lb) :
    AddLoadBalancerInstances s name ids
      = (.ok (), ⟨updateLB s.lbs name
          ⟨lb.dnsName, lb.listeners, addAll lb.instances ids, lb.healthCheck⟩,
          s.createFault, s.hcFault, s.describeResponse⟩) := by
  simp only [AddLoadBalancerInstances, svcRegisterInstances, h, map_instanceId_map_mk]

/-- Evaluation of `RemoveInstancesFromLoadBalancer` on an existing LB: the
request is accepted and the listed members are dropped from the set. -/
theorem removeInstances_eq (s : ELBServiceState) (name : String) (lb : LBState)
    (ids : List String) (h : lookupLB s.lbs name = some lb) :
    RemoveInstancesFromLoadBalancer s name ids
      = (.ok (), ⟨updateLB s.lbs name
          ⟨lb.dnsName, lb.listeners, removeAll lb.instances ids, lb.healthCheck⟩,
          s.createFault, s.hcFault, s.describeResponse⟩) := by
  simp only [RemoveInstancesFromLoadBalancer, svcDeregisterInstances, h,
    map_instanceId_map_mk]

/-- A provisioned LB used by concrete witnesses: public on 6443 with one
registered instance. -/
def lbApi : LBState :=
  ⟨"api-lb.elb.amazonaws.com", [tcpListener 6443], ["i-1"], none⟩

/-- A fault-free remote execution holding just `lbApi` under the name
"api-lb". -/
def stProvisioned : ELBServiceState :=
  ⟨[("api-lb", lbApi)], none, none, none⟩

/-- C7: on an existing LB, `AddLoadBalancerInstances` is idempotent over the
membership set — both calls are accepted, the second call leaves the whole
service state exactly as after the first, membership after one call is the
set-union of the old members and the given refs, and refs that are already
members leave the membership unchanged. -/
theorem addLoadBalancerInstances_idempotent (s : ELBServiceState) (name : String)
    (lb : LBState) (ids : List String) (h : lookupLB s.lbs name = some lb) :
    (AddLoadBalancerInstances s name ids).1 = .ok ()
    ∧ (AddLoadBalancerInstances (AddLoadBalancerInstances s name ids).2 name ids).1 = .ok ()
    ∧ (AddLoadBalancerInstances (AddLoadBalancerInstances s name ids).2 name ids).2
        = (AddLoadBalancerInstances s name ids).2
    ∧ (∀ x, x ∈ membersOf (AddLoadBalancerInstances s name ids).2 name
        ↔ x ∈ lb.instances ∨ x ∈ ids)
    ∧ ((∀ a ∈ ids, a ∈ lb.instances) →
        membersOf (AddLoadBalancerInstances s name ids).2 name = lb.instances) := by
  have h1 := addInstances_eq s name lb ids h
  have hlook : lookupLB (AddLoadBalancerInstances s name ids).2.lbs name
      = some ⟨lb.dnsName, lb.listeners, addAll lb.instances ids, lb.healthCheck⟩ := by
    rw [h1]
    exact lookupLB_updateLB_self _ _ _ _ h
  have h2 := addInstances_eq _ name _ ids hlook
  refine ⟨by rw [h1], by rw [h2], ?_, ?_, ?_⟩
  · rw [h2, h1]
    simp only [addAll_idem]
    simp [updateLB_updateLB]
  · intro x
    have hm : membersOf (AddLoadBalancerInstances s name ids).2 name
        = addAll lb.instances ids := by
      simp [membersOf, hlook]
    rw [hm]
    exact mem_addAll
  · intro hsub
    have hm : membersOf (AddLoadBalancerInstances s name ids).2 name
        = addAll lb.instances ids := by
      simp [membersOf, hlook]
    rw [hm]
    exact addAll_eq_of_subset hsub

/-- Witness for C7: adding `["i-1", "i-2"]` (of which "i-1" is already a
member) twice to the provisioned LB behaves as one call. -/
theorem addLoadBalancerInstances_idempotent_witness :
    (AddLoadBalancerInstances stProvisioned "api-lb" ["i-1", "i-2"]).1 = .ok ()
    ∧ (AddLoadBalancerInstances
        (AddLoadBalancerInstances stProvisioned "api-lb" ["i-1", "i-2"]).2
        "api-lb" ["i-1", "i-2"]).1 = .ok ()
    ∧ (AddLoadBalancerInstances
        (AddLoadBalancerInstances stProvisioned "api-lb" ["i-1", "i-2"]).2
        "api-lb" ["i-1", "i-2"]).2
        = (AddLoadBalancerInstances stProvisioned "api-lb" ["i-1", "i-2"]).2
    ∧ (∀ x, x ∈ membersOf
          (AddLoadBalancerInstances stProvisioned "api-lb" ["i-1", "i-2"]).2 "api-lb"
        ↔ x ∈ lbApi.instances ∨ x ∈ ["i-1", "i-2"])
    ∧ ((∀ a ∈ ["i-1", "i-2"], a ∈ lbApi.instances) →
        membersOf (AddLoadBalancerInstances stProvisioned "api-lb"
          ["i-1", "i-2"]).2 "api-lb" = lbApi.instances) :=
  addLoadBalancerInstances_idempotent stProvisioned "api-lb" lbApi
    ["i-1", "i-2"] (by decide)

/-- C8: on an existing LB, an empty ref list is a no-op success for both
`AddLoadBalancerInstances` and `RemoveInstancesFromLoadBalancer` (the call is
accepted and the whole service state is unchanged), and removing refs none of
which are members is likewise an accepted no-op. -/
theorem instances_empty_and_absent_noop (s : ELBServiceState) (name : String)
    (lb : LBState) (ids : List String) (h : lookupLB s.lbs name = some lb) :
    AddLoadBalancerInstances s name [] = (.ok (), s)
    ∧ RemoveInstancesFromLoadBalancer s name [] = (.ok (), s)
    ∧ ((∀ a ∈ ids, a ∉ lb.instances) →
        RemoveInstancesFromLoadBalancer s name ids = (.ok (), s)) := by
  refine ⟨?_, ?_, ?_⟩
  · rw [addInstances_eq s name lb [] h]
    rw [show addAll lb.instances [] = lb.instances from rfl]
    rw [updateLB_self s.lbs name lb h]
  · rw [removeInstances_eq s name lb [] h, removeAll_nil]
    rw [updateLB_self s.lbs name lb h]
  · intro hids
    rw [removeInstances_eq s name lb ids h]
    rw [removeAll_of_disjoint (fun a ham hin => hids a hin ham)]
    rw [updateLB_self s.lbs name lb h]

/-- Witness for C8 on the provisioned LB: empty-list calls return success with
the state unchanged, and removing the non-member "i-9" is a no-op success. -/
theorem instances_empty_and_absent_noop_witness :
    AddLoadBalancerInstances stProvisioned "api-lb" [] = (.ok (), stProvisioned)
    ∧ RemoveInstancesFromLoadBalancer stProvisioned "api-lb" [] = (.ok (), stProvisioned)
    ∧ ((∀ a ∈ ["i-9"], a ∉ lbApi.instances) →
        RemoveInstancesFromLoadBalancer stProvisioned "api-lb" ["i-9"]
          = (.ok (), stProvisioned)) :=
  instances_empty_and_absent_noop stProvisioned "api-lb" lbApi ["i-9"] (by decide)

/-- Evaluation of `SetLoadBalancerPrivate` on an existing LB: accepted, and
the listener set is filtered to drop frontend port 6443. -/
theorem setPrivate_eq (s : ELBServiceState) (name : String) (lb : LBState)
    (h : lookupLB s.lbs name = some lb) :
    SetLoadBalancerPrivate s name
      = (.ok (), ⟨updateLB s.lbs name
          ⟨lb.dnsName,
           lb.listeners.filter (fun l => !(([6443] : List Int).contains l.loadBalancerPort)),
           lb.instances, lb.healthCheck⟩,
          s.createFault, s.hcFault, s.describeResponse⟩) := by
  simp only [SetLoadBalancerPrivate, removeListenersFromELB,
    svcDeleteLoadBalancerListeners, h]

/-- Listeners surviving the port-6443 filter are not bound to 6443. -/
theorem filter_no_6443 (ls : List Listener) :
    ∀ l ∈ ls.filter (fun l => !(([6443] : List Int).contains l.loadBalancerPort)),
      l.loadBalancerPort ≠ 6443 := by
  intro l hl
  rw [List.mem_filter] at hl
  rcases hl with ⟨-, hb⟩
  simpa using hb

/-- C3: on an existing LB, `SetLoadBalancerPrivate` is idempotent — the first
call is accepted and leaves no listener on port 6443, and a second call on the
resulting state (where the listener is already absent) is again accepted, not
an error, and still leaves no listener on port 6443. -/
theorem setLoadBalancerPrivate_idempotent (s : ELBServiceState) (name : String)
    (lb : LBState) (h : lookupLB s.lbs name = some lb) :
    (SetLoadBalancerPrivate s name).1 = .ok ()
    ∧ noListenerOnPort (SetLoadBalancerPrivate s name).2 name 6443
    ∧ (SetLoadBalancerPrivate (SetLoadBalancerPrivate s name).2 name).1 = .ok ()
    ∧ noListenerOnPort
        (SetLoadBalancerPrivate (SetLoadBalancerPrivate s name).2 name).2 name 6443 := by
  have h1 := setPrivate_eq s name lb h
  have hlook : lookupLB (SetLoadBalancerPrivate s name).2.lbs name
      = some ⟨lb.dnsName,
          lb.listeners.filter (fun l => !(([6443] : List Int).contains l.loadBalancerPort)),
          lb.instances, lb.healthCheck⟩ := by
    rw [h1]
    exact lookupLB_updateLB_self _ _ _ _ h
  have h2 := setPrivate_eq _ name _ hlook
  have hlook2 : lookupLB
      (SetLoadBalancerPrivate (SetLoadBalancerPrivate s name).2 name).2.lbs name
      = some ⟨lb.dnsName,
          (lb.listeners.filter
            (fun l => !(([6443] : List Int).contains l.loadBalancerPort))).filter
            (fun l => !(([6443] : List Int).contains l.loadBalancerPort)),
          lb.instances, lb.healthCheck⟩ := by
    rw [h2]
    exact lookupLB_updateLB_self _ _ _ _ hlook
  refine ⟨by rw [h1], ?_, by rw [h2], ?_⟩
  · intro l hl
    rw [listenersOf, hlook] at hl
    exact filter_no_6443 _ l hl
  · intro l hl
    rw [listenersOf, hlook2] at hl
    exact filter_no_6443 _ l hl

/-- Witness for C3 on the provisioned LB (which is public on 6443). -/
theorem setLoadBalancerPrivate_idempotent_witness :
    (SetLoadBalancerPrivate stProvisioned "api-lb").1 = .ok ()
    ∧ noListenerOnPort (SetLoadBalancerPrivate stProvisioned "api-lb").2 "api-lb" 6443
    ∧ (SetLoadBalancerPrivate
        (SetLoadBalancerPrivate stProvisioned "api-lb").2 "api-lb").1 = .ok ()
    ∧ noListenerOnPort
        (SetLoadBalancerPrivate
          (SetLoadBalancerPrivate stProvisioned "api-lb").2 "api-lb").2 "api-lb" 6443 :=
  setLoadBalancerPrivate_idempotent stProvisioned "api-lb" lbApi (by decide)

/-- C4: on an existing LB, `SetLoadBalancerPublic` succeeds as a no-op when the
listener on the requested frontend port is identical to the one it would add
(same backend port, same protocol), and returns the provider's
duplicate-listener conflict, leaving the state untouched, when the frontend
port is taken by a listener with different parameters. -/
theorem setLoadBalancerPublic_conflict_semantics (s : ELBServiceState)
    (name : String) (port : Int) (lb : LBState) (x : Listener)
    (h : lookupLB s.lbs name = some lb) :
    (lb.listeners.find? (fun l => l.loadBalancerPort == port) = some (tcpListener port) →
      SetLoadBalancerPublic s name port = (.ok (), s))
    ∧ (lb.listeners.find? (fun l => l.loadBalancerPort == port) = some x →
        x ≠ tcpListener port →
        SetLoadBalancerPublic s name port
          = (.error (.awsErr ErrCodeDuplicateListenerException
              "A listener already exists for the given port with different parameters"), s)) := by
  have hs := updateLB_self s.lbs name lb h
  constructor
  · intro hf
    simp only [tcpListener] at hf
    simp only [SetLoadBalancerPublic, addListenersToELB, svcCreateLoadBalancerListeners,
      h, addListenerBatch, addOneListener]
    rw [hf]
    simp [hs]
  · intro hf hx
    simp only [tcpListener] at hf hx
    simp only [SetLoadBalancerPublic, addListenersToELB, svcCreateLoadBalancerListeners,
      h, addListenerBatch, addOneListener]
    rw [hf]
    simp [hx]

/-- An LB whose frontend port 6443 forwards to a different backend port
(8080), used to exercise the conflict branch. -/
def lbConflict : LBState :=
  ⟨"ext-lb.elb.amazonaws.com", [⟨8080, "tcp", "tcp", 6443⟩], [], none⟩

/-- A fault-free remote execution holding just `lbConflict` under "ext-lb". -/
def stConflict : ELBServiceState :=
  ⟨[("ext-lb", lbConflict)], none, none, none⟩

/-- Witness for C4: re-adding the identical 6443→6443 tcp listener succeeds as
a no-op; adding 6443→8080 where 6443→6443 would go raises the
duplicate-listener conflict. -/
theorem setLoadBalancerPublic_conflict_semantics_witness :
    SetLoadBalancerPublic stProvisioned "api-lb" 6443 = (.ok (), stProvisioned)
    ∧ SetLoadBalancerPublic stConflict "ext-lb" 6443
        = (.error (.awsErr ErrCodeDuplicateListenerException
            "A listener already exists for the given port with different parameters"),
           stConflict) :=
  ⟨(setLoadBalancerPublic_conflict_semantics stProvisioned "api-lb" 6443 lbApi
      (tcpListener 6443) (by decide)).1 (by decide),
   (setLoadBalancerPublic_conflict_semantics stConflict "ext-lb" 6443 lbConflict
      ⟨8080, "tcp", "tcp", 6443⟩ (by decide)).2 (by decide) (by decide)⟩

/-- An empty, fault-free remote execution. -/
def stFresh : ELBServiceState := ⟨[], none, none, none⟩

/-- C5: whenever `CreateClassicELB` returns success, the created LB carries
the default health check — target "HTTP:6443/" (protocol HTTP, path "/",
probe port 6443), healthy/unhealthy thresholds 2, interval 30, timeout 3 —
whatever listener port the caller supplied. -/
theorem provision_attaches_default_health_check (s : ELBServiceState)
    (name : String) (subnets : List String) (port : Int) (dns : String)
    (h : (CreateClassicELB s name subnets port).1 = .ok dns) :
    healthCheckOf (CreateClassicELB s name subnets port).2 name
      = some ⟨2, 30, "HTTP:6443/", 3, 2⟩ := by
  cases hcf : s.createFault with
  | some e =>
    simp [CreateClassicELB, svcCreateLoadBalancer, hcf] at h
  | none =>
    cases hlk : lookupLB s.lbs name with
    | some lb =>
      simp [CreateClassicELB, svcCreateLoadBalancer, hcf, hlk] at h
    | none =>
      cases hhc : s.hcFault with
      | some e =>
        simp [CreateClassicELB, svcCreateLoadBalancer, addHealthCheck,
          svcConfigureHealthCheck, hcf, hlk, hhc] at h
      | none =>
        simp [CreateClassicELB, svcCreateLoadBalancer, addHealthCheck,
          svcConfigureHealthCheck, hcf, hlk, hhc, healthCheckOf, lookupLB, updateLB]
        rfl

/-- Witness for C5: provisioning with listener port 8443 still installs the
fixed "HTTP:6443/" health check. -/
theorem provision_attaches_default_health_check_witness :
    healthCheckOf
      (CreateClassicELB stFresh "api-lb" ["subnet-a", "subnet-b"] 8443).2 "api-lb"
      = some ⟨2, 30, "HTTP:6443/", 3, 2⟩ :=
  provision_attaches_default_health_check stFresh "api-lb" ["subnet-a", "subnet-b"]
    8443 "api-lb.elb.amazonaws.com" (by rfl)

/-- C9: in an execution where creation succeeds (no create fault, fresh name)
but the health-check attach fails, `CreateClassicELB` returns the attach
error, no rollback or delete is issued, and the created LB remains
discoverable: `DoesELBExist` on the resulting state reports it present with
its DNS name and no error. -/
theorem provision_partial_failure_observable (s : ELBServiceState) (name : String)
    (subnets : List String) (port : Int) (e : RemoteError)
    (hcf : s.createFault = none) (hfresh : lookupLB s.lbs name = none)
    (hhc : s.hcFault = some e) (hresp : s.describeResponse = none) :
    (CreateClassicELB s name subnets port).1 = .error e
    ∧ DoesELBExist (CreateClassicELB s name subnets port).2 name
        = some (true, elbDnsName name, none) := by
  constructor
  · simp [CreateClassicELB, svcCreateLoadBalancer, addHealthCheck,
      svcConfigureHealthCheck, hcf, hfresh, hhc]
  · simp [CreateClassicELB, svcCreateLoadBalancer, addHealthCheck,
      svcConfigureHealthCheck, hcf, hfresh, hhc, DoesELBExist,
      svcDescribeLoadBalancers, hresp, lookupLB]

/-- Witness for C9: the health-check attach is throttled after a successful
create; the error is returned and the LB is discoverable. -/
theorem provision_partial_failure_observable_witness :
    (CreateClassicELB stHealthCheckThrottled "rh-api" ["subnet-a"] 6443).1
      = .error (.awsErr "Throttling" "Rate exceeded")
    ∧ DoesELBExist (CreateClassicELB stHealthCheckThrottled "rh-api" ["subnet-a"] 6443).2
        "rh-api" = some (true, elbDnsName "rh-api", none) :=
  provision_partial_failure_observable stHealthCheckThrottled "rh-api" ["subnet-a"]
    6443 (.awsErr "Throttling" "Rate exceeded") rfl rfl rfl rfl

/-- A listener accepted by `addOneListener` is present in the resulting set
(freshly appended, or already there with identical parameters). -/
theorem addOneListener_ok_mem (ls ls' : List Listener) (l : Listener)
    (h : addOneListener ls l = .ok ls') : l ∈ ls' := by
  unfold addOneListener at h
  split at h
  next hf =>
    cases h
    simp
  next x hf =>
    split at h
    next hx =>
      cases h
      exact hx ▸ List.mem_of_find?_eq_some hf
    next hx =>
      cases h

/-- Evaluation of `SetLoadBalancerPublic` on an existing LB, by the outcome of
the remote duplicate-listener check. -/
theorem setPublic_eq (s : ELBServiceState) (name : String) (port : Int) (lb : LBState)
    (h : lookupLB s.lbs name = some lb) :
    SetLoadBalancerPublic s name port
      = match addListenerBatch lb.listeners [tcpListener port] with
        | .error e => (.error e, s)
        | .ok ls' =>
          (.ok (), ⟨updateLB s.lbs name ⟨lb.dnsName, ls', lb.instances, lb.healthCheck⟩,
            s.createFault, s.hcFault, s.describeResponse⟩) := by
  cases hb : addListenerBatch lb.listeners [tcpListener port] with
  | error e =>
    simp only [SetLoadBalancerPublic, addListenersToELB, svcCreateLoadBalancerListeners, h]
    simp only [tcpListener] at hb
    rw [hb]
  | ok ls' =>
    simp only [SetLoadBalancerPublic, addListenersToELB, svcCreateLoadBalancerListeners, h]
    simp only [tcpListener] at hb
    rw [hb]

/-- After `SetLoadBalancerPrivate` on an existing LB in a fault-free describe
environment, the LB is still discoverable under its DNS name and carries no
listener on port 6443. -/
theorem exists_and_absent_after_private (s2 : ELBServiceState) (name : String)
    (lb2 : LBState) (h2 : lookupLB s2.lbs name = some lb2)
    (hr2 : s2.describeResponse = none) :
    DoesELBExist (SetLoadBalancerPrivate s2 name).2 name = some (true, lb2.dnsName, none)
    ∧ noListenerOnPort (SetLoadBalancerPrivate s2 name).2 name 6443 := by
  have hpriv := setPrivate_eq s2 name lb2 h2
  have hlk := lookupLB_updateLB_self s2.lbs name
    ⟨lb2.dnsName,
     lb2.listeners.filter (fun l => !(([6443] : List Int).contains l.loadBalancerPort)),
     lb2.instances, lb2.healthCheck⟩ lb2 h2
  constructor
  · rw [hpriv]
    simp only [DoesELBExist, svcDescribeLoadBalancers, hr2, hlk]
  · intro l hl
    rw [hpriv] at hl
    rw [listenersOf, hlk] at hl
    exact filter_no_6443 _ l hl

/-- C6: on an existing LB in a fault-free describe environment,
`SetLoadBalancerPublic(name, 6443)` followed by `SetLoadBalancerPrivate(name)`
is a round trip back to the private state: whenever SetPublic succeeds it has
added the tcp 6443→6443 listener, and after SetPrivate the LB is still
discoverable (`DoesELBExist` reports it present under its DNS name with no
error) while no listener on port 6443 remains. -/
theorem setPublic_setPrivate_roundtrip (s : ELBServiceState) (name : String)
    (lb : LBState) (h : lookupLB s.lbs name = some lb)
    (hresp : s.describeResponse = none) :
    ((SetLoadBalancerPublic s name 6443).1 = .ok () →
      tcpListener 6443 ∈ listenersOf (SetLoadBalancerPublic s name 6443).2 name)
    ∧ DoesELBExist
        (SetLoadBalancerPrivate (SetLoadBalancerPublic s name 6443).2 name).2 name
        = some (true, lb.dnsName, none)
    ∧ noListenerOnPort
        (SetLoadBalancerPrivate (SetLoadBalancerPublic s name 6443).2 name).2 name 6443 := by
  have hpub := setPublic_eq s name 6443 lb h
  cases hb : addListenerBatch lb.listeners [tcpListener 6443] with
  | error e =>
    rw [hb] at hpub
    have hrt := exists_and_absent_after_private s name lb h hresp
    refine ⟨?_, ?_, ?_⟩
    · intro hok
      rw [hpub] at hok
      simp at hok
    · rw [hpub]
      exact hrt.1
    · rw [hpub]
      exact hrt.2
  | ok ls' =>
    rw [hb] at hpub
    have hone : addOneListener lb.listeners (tcpListener 6443) = .ok ls' := by
      unfold addListenerBatch at hb
      split at hb
      next e he =>
        cases hb
      next ls2 he =>
        unfold addListenerBatch at hb
        cases hb
        exact he
    have hmem : tcpListener 6443 ∈ ls' := addOneListener_ok_mem _ _ _ hone
    have hlk1 := lookupLB_updateLB_self s.lbs name
      ⟨lb.dnsName, ls', lb.instances, lb.healthCheck⟩ lb h
    refine ⟨?_, ?_, ?_⟩
    · intro hok
      rw [hpub]
      simp only [listenersOf, hlk1]
      exact hmem
    · rw [hpub]
      exact (exists_and_absent_after_private
        ⟨updateLB s.lbs name ⟨lb.dnsName, ls', lb.instances, lb.healthCheck⟩,
         s.createFault, s.hcFault, s.describeResponse⟩ name
        ⟨lb.dnsName, ls', lb.instances, lb.healthCheck⟩ hlk1 hresp).1
    · rw [hpub]
      exact (exists_and_absent_after_private
        ⟨updateLB s.lbs name ⟨lb.dnsName, ls', lb.instances, lb.healthCheck⟩,
         s.createFault, s.hcFault, s.describeResponse⟩ name
        ⟨lb.dnsName, ls', lb.instances, lb.healthCheck⟩ hlk1 hresp).2

/-- Witness for C6 on the provisioned LB. -/
theorem setPublic_setPrivate_roundtrip_witness :
    ((SetLoadBalancerPublic stProvisioned "api-lb" 6443).1 = .ok () →
      tcpListener 6443 ∈ listenersOf (SetLoadBalancerPublic stProvisioned "api-lb" 6443).2 "api-lb")
    ∧ DoesELBExist
        (SetLoadBalancerPrivate
          (SetLoadBalancerPublic stProvisioned "api-lb" 6443).2 "api-lb").2 "api-lb"
        = some (true, lbApi.dnsName, none)
    ∧ noListenerOnPort
        (SetLoadBalancerPrivate
          (SetLoadBalancerPublic stProvisioned "api-lb" 6443).2 "api-lb").2 "api-lb" 6443 :=
  setPublic_setPrivate_roundtrip stProvisioned "api-lb" lbApi (by decide) rfl
